import Mathlib

/-!
# Verification of `RazerDevice` (daemon/openrazer_daemon/hardware/device_base.py)

Shallow embedding of the per-device runtime core: the zone/effect state model,
the effect-restoration dispatch, persisted-colors loading, serial-number
generation, DPI/poll-rate clamping, suspend/resume sequencing, the observer
bus and `close`.  Python `str` is modelled by `String` (ASCII range, which is
all the device uses for zone, effect and attribute names), Python `int` by
`Int`/`Nat`, raised exceptions by `Option`/`Except`.
-/

/-- `capitalize_first_char` (device_base.py line 1317):
`string[0].upper() + string[1:]`.  `none` models the `IndexError` raised on
the empty string; `Char.toUpper` models `str.upper` on the ASCII range. -/
def capitalize_first_char (s : String) : Option String :=
  match s.data with
  | [] => none
  | c :: cs => some (String.mk (Char.toUpper c :: cs))

def is_ascii_lower (c : Char) : Bool :=
  'a' ≤ c && c ≤ 'z'

/-- Scanner for `handle_underscores`: `pending` counts the underscores read
since the last emitted character, mirroring the greedy `[_]+` of the regex
`re.sub(r'[_]+(?P<first>[a-z])', ...)`: a maximal run of underscores followed
by a lowercase letter is replaced by the uppercased letter, any other run is
kept verbatim. -/
def handle_underscores_go (pending : Nat) : List Char → List Char
  | [] => List.replicate pending '_'
  | c :: cs =>
    if c = '_' then handle_underscores_go (pending + 1) cs
    else if 0 < pending ∧ is_ascii_lower c = true then
      Char.toUpper c :: handle_underscores_go 0 cs
    else
      List.replicate pending '_' ++ c :: handle_underscores_go 0 cs

/-- `handle_underscores` (device_base.py line 1313). -/
def handle_underscores (s : String) : String :=
  String.mk (handle_underscores_go 0 s.data)

/-- `RazerDevice.ZONES` (device_base.py line 46). -/
def ZONES : List String :=
  ["backlight", "logo", "scroll", "left", "right", "charging", "fast_charging",
   "fully_charged", "channel1", "channel2", "channel3", "channel4", "channel5",
   "channel6"]

/-- One entry of the `self.zone` dict (device_base.py lines 96-105).
`brightness` is a Python float carried opaquely (no arithmetic is done on it
in the modelled code), so an integral value type suffices. -/
structure ZoneInfo where
  present : Bool
  active : Bool
  brightness : Int
  effect : String
  colors : List Int
  speed : Int
  wave_dir : Int
deriving DecidableEq

/-- Recipient of an observer message: the registered parent aggregator or a
directly registered observer (identified by a number). -/
inductive Recipient where
  | parent
  | obs (n : Nat)
deriving DecidableEq

/-- A value written through the persistence contract. -/
inductive PVal where
  | b (x : Bool)
  | i (x : Int)
  | s (x : String)
deriving DecidableEq

/-- The mutable state of one `RazerDevice`: the zone dict, the side-effect
flags, the observer structures, and logs of the externally visible effects
(observer deliveries and `device_mode` control-file writes). -/
structure DeviceState where
  zones : String → ZoneInfo
  disable_notifications : Bool
  disable_persistence : Bool
  effect_sync_propagate_up : Bool
  parent : Option Nat
  observers : List Nat
  delivered : List (Recipient × String)
  persistence_changed : Bool
  is_closed : Bool
  dpi : Int × Int
  poll_rate : Int
  mode_writes : List (Nat × Nat)

/-- The device's fixed capability environment: the `METHODS` list, the Python
attributes that exist on the object (setter name together with its
`inspect.signature` parameter count), and the class constants consumed by the
modelled methods. -/
structure DeviceEnv where
  METHODS : List String
  attrs : List (String × Nat)
  DRIVER_MODE : Bool
  mode_file_present : Bool
  live_dpi : Int × Int
  DPI_MAX : Int
  POLL_RATES : List Int

/-- `getattr(self, name, None)` together with `get_num_arguments`: the arity
of the named attribute when it exists. -/
def lookupArity (env : DeviceEnv) (name : String) : Option Nat :=
  List.lookup name env.attrs

/-- `getattr(self, name, None) is not None`. -/
def hasAttr (env : DeviceEnv) (name : String) : Bool :=
  (lookupArity env name).isSome

/-- The default per-zone record built in `__init__` (lines 96-105). -/
def defaultZone : ZoneInfo :=
  { present := false, active := true, brightness := 75, effect := "spectrum",
    colors := [0, 255, 0, 0, 255, 255, 0, 0, 255], speed := 1, wave_dir := 1 }

/-- A device state with the `__init__` defaults everywhere. -/
def baseState : DeviceState :=
  { zones := fun _ => defaultZone, disable_notifications := false,
    disable_persistence := false, effect_sync_propagate_up := false,
    parent := none, observers := [], delivered := [],
    persistence_changed := false, is_closed := false, dpi := (1800, 1800),
    poll_rate := 500, mode_writes := [] }

/-- Replace the record of one zone in the zone dict. -/
def setZone (s : DeviceState) (i : String) (z : ZoneInfo) : DeviceState :=
  { s with zones := fun j => if j = i then z else s.zones j }

/-- A state in which exactly one zone carries the given record and every
other zone has the (absent) default. -/
def mkSingle (i : String) (z : ZoneInfo) : DeviceState :=
  { baseState with zones := fun j => if j = i then z else defaultZone }

/-- An invocation of a device setter: attribute name and positional
arguments. -/
abbrev Call := String × List Int

/-- The effect-setter attribute name composed by `restore_effect`
(lines 448-451): no zone prefix for `backlight`, otherwise
`'set' + handle_underscores(capitalize_first_char(i)) + capitalize_first_char(effect)`.
`none` models the `IndexError` from `capitalize_first_char` on an empty
name. -/
def setterName (i effect : String) : Option String :=
  if i = "backlight" then
    (capitalize_first_char effect).map (fun ce => "set" ++ ce)
  else
    match capitalize_first_char i with
    | none => none
    | some ci =>
      match capitalize_first_char effect with
      | none => none
      | some ce => some ("set" ++ handle_underscores ci ++ ce)

/-- The spectrum-fallback attribute name composed by `restore_effect`
(lines 461-464): `'setSpectrum'` for `backlight`, otherwise
`'set' + capitalize_first_char(i) + 'Spectrum'` — note the source does NOT
apply `handle_underscores` on this path. -/
def fallbackName (i : String) : Option String :=
  if i = "backlight" then some "setSpectrum"
  else (capitalize_first_char i).map (fun ci => "set" ++ ci ++ "Spectrum")

/-- The arity-driven argument dispatch of `restore_effect` (lines 473-507).
Returns the invocations performed: the branches that log an error, and the
two ripple effects handled by the ripple manager, invoke nothing. -/
def dispatchCalls (name : String) (ar : Nat) (effect : String)
    (colors : List Int) (speed wave_dir : Int) : List Call :=
  if ar = 0 then [(name, [])]
  else if ar = 1 then
    if effect = "starlightRandom" then [(name, [speed])]
    else if effect = "wave" then [(name, [wave_dir])]
    else if effect = "wheel" then [(name, [wave_dir])]
    else []
  else if ar = 3 then
    [(name, [colors.getD 0 0, colors.getD 1 0, colors.getD 2 0])]
  else if ar = 4 then
    if effect = "starlightSingle" then
      [(name, [colors.getD 0 0, colors.getD 1 0, colors.getD 2 0, speed])]
    else if effect = "reactive" then
      [(name, [colors.getD 0 0, colors.getD 1 0, colors.getD 2 0, speed])]
    else []
  else if ar = 6 then
    [(name, [colors.getD 0 0, colors.getD 1 0, colors.getD 2 0,
             colors.getD 3 0, colors.getD 4 0, colors.getD 5 0])]
  else if ar = 7 then
    [(name, [colors.getD 0 0, colors.getD 1 0, colors.getD 2 0,
             colors.getD 3 0, colors.getD 4 0, colors.getD 5 0, speed])]
  else if ar = 9 then
    [(name, [colors.getD 0 0, colors.getD 1 0, colors.getD 2 0,
             colors.getD 3 0, colors.getD 4 0, colors.getD 5 0,
             colors.getD 6 0, colors.getD 7 0, colors.getD 8 0])]
  else []

/-- The body of `restore_effect` for one zone (lines 444-507): skip absent
zones; compose the setter name (raising on an empty effect name, modelled by
`none`); if the setter is missing and the effect is not `spectrum`, correct
the stored effect to `spectrum` and retry with the fallback name; dispatch by
arity when a setter was found. -/
def restore_zone (env : DeviceEnv) (s : DeviceState) (i : String) :
    Option (DeviceState × List Call) :=
  if (s.zones i).present = true then
    match setterName i (s.zones i).effect with
    | none => none
    | some name =>
      match lookupArity env name with
      | some ar =>
        some (s, dispatchCalls name ar (s.zones i).effect (s.zones i).colors
                   (s.zones i).speed (s.zones i).wave_dir)
      | none =>
        if (s.zones i).effect = "spectrum" then some (s, [])
        else
          match fallbackName i with
          | none => none
          | some fn =>
            match lookupArity env fn with
            | none =>
              some (setZone s i { s.zones i with effect := "spectrum" }, [])
            | some ar =>
              some (setZone s i { s.zones i with effect := "spectrum" },
                    dispatchCalls fn ar "spectrum" (s.zones i).colors
                      (s.zones i).speed (s.zones i).wave_dir)
  else some (s, [])

/-- The zone loop of `restore_effect`, threading the state and accumulating
the performed invocations in order. -/
def restore_effect_go (env : DeviceEnv) : List String → DeviceState →
    Option (DeviceState × List Call)
  | [], s => some (s, [])
  | i :: rest, s =>
    match restore_zone env s i with
    | none => none
    | some (s', cs) =>
      match restore_effect_go env rest s' with
      | none => none
      | some (s'', cs') => some (s'', cs ++ cs')

/-- `restore_effect` (device_base.py lines 436-507). -/
def restore_effect (env : DeviceEnv) (s : DeviceState) :
    Option (DeviceState × List Call) :=
  restore_effect_go env ZONES s

/-- `set_persistence` (lines 509-531), zone branch: a no-op when persistence
is disabled, otherwise marks the store dirty and mutates the zone field. -/
def set_persistence (s : DeviceState) (zone key : String) (v : PVal) :
    DeviceState :=
  if s.disable_persistence = true then s
  else
    { s with persistence_changed := true,
             zones := fun j =>
               if j = zone then
                 match key, v with
                 | "active", PVal.b x => { s.zones j with active := x }
                 | "brightness", PVal.i x => { s.zones j with brightness := x }
                 | "effect", PVal.s x => { s.zones j with effect := x }
                 | "speed", PVal.i x => { s.zones j with speed := x }
                 | "wave_dir", PVal.i x => { s.zones j with wave_dir := x }
                 | _, _ => s.zones j
               else s.zones j }

/-- One observer delivery appended to the log. -/
def deliver (s : DeviceState) (r : Recipient) (msg : String) : DeviceState :=
  { s with delivered := s.delivered ++ [(r, msg)] }

/-- `notify_observers` (lines 1248-1262): nothing when notifications are
disabled; otherwise the parent first (when propagation is on and a parent is
registered), then every observer in list order. -/
def notify_observers (s : DeviceState) (msg : String) : DeviceState :=
  if s.disable_notifications = true then s
  else
    let s1 := if s.effect_sync_propagate_up = true ∧ s.parent.isSome = true
              then deliver s Recipient.parent msg else s
    s.observers.foldl (fun t o => deliver t (Recipient.obs o) msg) s1

/-- `register_observer` (lines 1217-1225). -/
def register_observer (s : DeviceState) (o : Nat) : DeviceState :=
  if o ∈ s.observers then s else { s with observers := s.observers ++ [o] }

/-- `remove_observer` (lines 1236-1246): Python `list.remove` drops the first
occurrence; the `ValueError` on a missing element is swallowed. -/
def remove_observer (s : DeviceState) (o : Nat) : DeviceState :=
  { s with observers := s.observers.erase o }

/-- Modelled from the spec: the per-zone `setXActive` setters live in the
DBus-method modules, which are not under src/.  Per the spec (§4.1, §5) each
mutates the zone field through the persistence contract (`set_persistence`)
and broadcasts a state-change event to observers (`notify_observers`); the
hardware write itself is external. -/
def zone_active_setter (s : DeviceState) (i : String) (v : Bool) :
    DeviceState :=
  notify_observers (set_persistence s i "active" (PVal.b v)) "effect"

/-- Modelled from the spec: the per-zone brightness setters live in the
DBus-method modules, which are not under src/.  Same contract as
`zone_active_setter`. -/
def zone_brightness_setter (s : DeviceState) (i : String) (v : Int) :
    DeviceState :=
  notify_observers (set_persistence s i "brightness" (PVal.i v)) "effect"

/-- `capitalize_first_char` restricted to the nonempty `ZONES` names, made
total for use inside the brightness loops (the default is never taken for a
name from `ZONES`). -/
def cap_first (s : String) : String :=
  (capitalize_first_char s).getD ""

/-- One iteration of `restore_brightness` (lines 390-412): re-assert the
stored active state when the zone has an active setter, then the stored
brightness (the `backlight` brightness setter has no zone prefix and needs
no `METHODS` entry). -/
def restore_brightness_step (env : DeviceEnv) (t : DeviceState) (i : String) :
    DeviceState :=
  if (t.zones i).present = true then
    let t1 := if ("set_" ++ i ++ "_active") ∈ env.METHODS ∧
                 hasAttr env ("set" ++ cap_first i ++ "Active") = true
              then zone_active_setter t i (t.zones i).active else t
    if (if i = "backlight" then hasAttr env "setBrightness" = true
        else ("set_" ++ i ++ "_brightness") ∈ env.METHODS ∧
             hasAttr env ("set" ++ cap_first i ++ "Brightness") = true)
    then zone_brightness_setter t1 i (t1.zones i).brightness else t1
  else t

/-- `restore_brightness` (lines 390-412). -/
def restore_brightness (env : DeviceEnv) (s : DeviceState) : DeviceState :=
  ZONES.foldl (restore_brightness_step env) s

/-- One iteration of `disable_brightness` (lines 414-434): active state to
`False` and brightness to `0` through the same setters. -/
def disable_brightness_step (env : DeviceEnv) (t : DeviceState) (i : String) :
    DeviceState :=
  if (t.zones i).present = true then
    let t1 := if ("set_" ++ i ++ "_active") ∈ env.METHODS ∧
                 hasAttr env ("set" ++ cap_first i ++ "Active") = true
              then zone_active_setter t i false else t
    if (if i = "backlight" then hasAttr env "setBrightness" = true
        else ("set_" ++ i ++ "_brightness") ∈ env.METHODS ∧
             hasAttr env ("set" ++ cap_first i ++ "Brightness") = true)
    then zone_brightness_setter t1 i 0 else t1
  else t

/-- `disable_brightness` (lines 414-434). -/
def disable_brightness (env : DeviceEnv) (s : DeviceState) : DeviceState :=
  ZONES.foldl (disable_brightness_step env) s

/-- `set_device_mode` (lines 1028-1047): clamp the mode to {0, 3} and the
parameter to 0, then write the two bytes (logged in `mode_writes`). -/
def set_device_mode (s : DeviceState) (mode_id param : Nat) : DeviceState :=
  { s with mode_writes :=
      s.mode_writes ++ [((if mode_id = 0 ∨ mode_id = 3 then mode_id else 0),
                         (if param ≠ 0 then 0 else param))] }

/-- `suspend_device` (lines 1134-1146): set both disable flags, zero the
brightness/active state on the hardware, run the (base-class no-op) suspend
hook, clear both flags. -/
def suspend_device (env : DeviceEnv) (s : DeviceState) : DeviceState :=
  let s2 := { s with disable_notifications := true, disable_persistence := true }
  let s3 := disable_brightness env s2
  { s3 with disable_notifications := false, disable_persistence := false }

/-- `resume_device` (lines 1148-1171): set both disable flags, re-assert
driver mode when applicable, restore brightness, run the (base-class no-op)
resume hook, clear both flags. -/
def resume_device (env : DeviceEnv) (s : DeviceState) : DeviceState :=
  let s2 := { s with disable_notifications := true, disable_persistence := true }
  let s3 := if env.DRIVER_MODE = true then set_device_mode s2 3 0 else s2
  let s4 := restore_brightness env s3
  { s4 with disable_notifications := false, disable_persistence := false }

/-- `close` (lines 1193-1215): on a not-yet-closed device, capture the live
DPI when supported (`getDPI` is external; its value is `env.live_dpi`),
revert to device mode swallowing a `FileNotFoundError` when the control file
is gone, run the `_close` hook (which clears the observer list), and mark
closed.  On a closed device: nothing. -/
def close (env : DeviceEnv) (s : DeviceState) : DeviceState :=
  if s.is_closed = true then s
  else
    let s1 := if "get_dpi_xy" ∈ env.METHODS ∧ hasAttr env "getDPI" = true
              then { s with dpi := env.live_dpi } else s
    let s2 := if env.DRIVER_MODE = true then
                (if env.mode_file_present = true then set_device_mode s1 0 0
                 else s1)
              else s1
    { s2 with observers := [], is_closed := true }

/-- Python `min(xs, key=lambda x: abs(x - p))` specialised to the poll-rate
clamp: keep the first element, replacing it only on a strictly smaller key,
so ties resolve to the earliest element exactly as Python `min` does. -/
def pyMinAbsGo (p b : Int) : List Int → Int
  | [] => b
  | x :: xs =>
    if (x - p).natAbs < (b - p).natAbs then pyMinAbsGo p x xs
    else pyMinAbsGo p b xs

/-- Python `min` with the absolute-distance key; `none` models the
`ValueError` raised on an empty list. -/
def pyMinAbs (p : Int) : List Int → Option Int
  | [] => none
  | x :: xs => some (pyMinAbsGo p x xs)

/-- `restore_dpi_poll_rate` (lines 365-388): clamp each stored DPI component
to `DPI_MAX` when it exceeds it and invoke the DPI setter; replace a stored
poll rate not in `POLL_RATES` by the nearest available one and invoke the
poll-rate setter.  Result: updated state, the DPI call, the poll call. -/
def restore_dpi_poll_rate (env : DeviceEnv) (s : DeviceState) :
    Option (DeviceState × Option (Int × Int) × Option Int) :=
  let d0 := if s.dpi.1 > env.DPI_MAX then env.DPI_MAX else s.dpi.1
  let d1 := if s.dpi.2 > env.DPI_MAX then env.DPI_MAX else s.dpi.2
  let s1 := if hasAttr env "setDPI" = true then { s with dpi := (d0, d1) } else s
  let dpiCall := if hasAttr env "setDPI" = true then some (d0, d1) else none
  if hasAttr env "setPollRate" = true then
    if s1.poll_rate ∈ env.POLL_RATES then some (s1, dpiCall, some s1.poll_rate)
    else
      match pyMinAbs s1.poll_rate env.POLL_RATES with
      | none => none
      | some r => some ({ s1 with poll_rate := r }, dpiCall, some r)
  else some (s1, dpiCall, none)

/-- Python `str.split(" ")` with the single-space separator used for the
persisted colors string: split at every space, keeping empty pieces. -/
def py_split_space_go (cur : List Char) : List Char → List (List Char)
  | [] => [cur.reverse]
  | c :: cs =>
    if c = ' ' then cur.reverse :: py_split_space_go [] cs
    else py_split_space_go (c :: cur) cs

/-- Python `str.split(" ")`. -/
def py_split_space (s : String) : List String :=
  (py_split_space_go [] s.data).map (fun l => String.mk l)

/-- Strip leading and trailing whitespace, as Python `int()` does before
parsing. -/
def py_strip (s : String) : List Char :=
  ((s.data.dropWhile Char.isWhitespace).reverse.dropWhile
    Char.isWhitespace).reverse

/-- Accumulate a decimal digit list into a number. -/
def digitsToNat (ds : List Char) : Nat :=
  ds.foldl (fun a c => a * 10 + (c.toNat - 48)) 0

/-- Models Python `int(token)` on the decimal notation in use here: optional
surrounding whitespace, an optional sign, then one or more ASCII digits;
`none` models the `ValueError` on anything else. -/
def pyInt (s : String) : Option Int :=
  match py_strip s with
  | '-' :: ds =>
    if ds ≠ [] ∧ ds.all Char.isDigit = true then
      some (-(Int.ofNat (digitsToNat ds)))
    else none
  | '+' :: ds =>
    if ds ≠ [] ∧ ds.all Char.isDigit = true then
      some (Int.ofNat (digitsToNat ds))
    else none
  | ds =>
    if ds ≠ [] ∧ ds.all Char.isDigit = true then
      some (Int.ofNat (digitsToNat ds))
    else none

/-- The default palette (lines 102 and 305). -/
def default_colors : List Int := [0, 255, 0, 0, 255, 255, 0, 0, 255]

/-- Result of the colors `for` loop in `__init__` (lines 294-298):
`ok` = completed, `valueError` = caught by `except ValueError` (non-integer
token or out-of-range value), `indexError` = list assignment past the end of
the 9-slot list, which no `except` clause catches. -/
inductive ColorsLoop where
  | ok (l : List Int)
  | valueError
  | indexError
deriving DecidableEq

/-- The colors loop (lines 294-298): for each token, `int(item)` (raising
`ValueError` on junk), then the indexed assignment (raising `IndexError`
out of bounds), then the 0-255 range check (raising `ValueError`). -/
def load_colors_loop (l : List Int) (idx : Nat) : List String → ColorsLoop
  | [] => ColorsLoop.ok l
  | tok :: rest =>
    match pyInt tok with
    | none => ColorsLoop.valueError
    | some v =>
      if idx < l.length then
        if 0 ≤ v ∧ v ≤ 255 then load_colors_loop (l.set idx v) (idx + 1) rest
        else ColorsLoop.valueError
      else ColorsLoop.indexError

/-- The colors-loading block of `__init__` (lines 291-308): run the loop over
the space-split tokens starting from the zone's current colors list, then the
`len(...) != 9` check (line 301, on the in-place-mutated list); a caught
`ValueError` reinitialises to the default palette, an `IndexError` escapes
(`Except.error`), failing the load. -/
def load_colors (current : List Int) (stored : String) :
    Except Unit (List Int) :=
  match load_colors_loop current 0 (py_split_space stored) with
  | ColorsLoop.indexError => Except.error ()
  | ColorsLoop.valueError => Except.ok default_colors
  | ColorsLoop.ok l =>
    if l.length ≠ 9 then Except.ok default_colors else Except.ok l

/-- Uppercase base-16 digit characters, as produced by Python's `X`/`d`
format conversions. -/
def hexDigitCharUpper (d : Nat) : Char :=
  match d with
  | 0 => '0' | 1 => '1' | 2 => '2' | 3 => '3' | 4 => '4'
  | 5 => '5' | 6 => '6' | 7 => '7' | 8 => '8' | 9 => '9'
  | 10 => 'A' | 11 => 'B' | 12 => 'C' | 13 => 'D' | 14 => 'E' | _ => 'F'

/-- Base-`b` digits of `n`, most significant first, empty for `0` (the
zero-padding of the format widths below covers the `0` case); `fuel` bounds
the recursion and is always instantiated with `n` itself, which suffices. -/
def natDigitsBase (b : Nat) : Nat → Nat → List Nat
  | 0, _ => []
  | f + 1, n => if n = 0 then [] else
      natDigitsBase b f (n / b) ++ [n % b]

/-- Python `"{0:04X}".format(n)`: uppercase hex, zero-padded to width 4. -/
def fmt04X (n : Nat) : String :=
  String.mk (List.replicate (4 - (natDigitsBase 16 n n).length) '0' ++
             (natDigitsBase 16 n n).map hexDigitCharUpper)

/-- Python `"{0:04d}".format(n)`: decimal, zero-padded to width 4. -/
def fmt04d (n : Nat) : String :=
  String.mk (List.replicate (4 - (natDigitsBase 10 n n).length) '0' ++
             (natDigitsBase 10 n n).map hexDigitCharUpper)

/-- Python `serial.replace(' ', '_')`: with a single-character pattern this
is a character-wise map. -/
def repl_space_char (c : Char) : Char :=
  if c = ' ' then '_' else c

/-- Python `serial.replace(' ', '_')` (line 1003). -/
def py_replace_space (s : String) : String :=
  String.mk (s.data.map repl_space_char)

/-- `re.fullmatch(r"[\dA-Z]+", serial)` (line 995): one or more characters,
each a decimal digit or an uppercase letter (ASCII reading of the classes,
which covers every serial the hardware produces). -/
def valid_serial (s : String) : Bool :=
  !s.data.isEmpty && s.data.all (fun c => c.isDigit || ('A' ≤ c && c ≤ 'Z'))

/-- The validation/generation tail of `get_serial` (lines 989-1005), applied
to the raw string read from the `device_serial` control file: an invalid
serial is replaced by `UNKNOWN_{VID:04X}{PID:04X}_{index:04d}` where `index`
is taken from (and then bumped in) the shared per-(vid, pid) counter; spaces
are then replaced by underscores.  Returns the serial and the updated
counter. -/
def get_serial (raw : String) (vid pid : Nat) (counter : Nat × Nat → Nat) :
    String × (Nat × Nat → Nat) :=
  if valid_serial raw = true then (py_replace_space raw, counter)
  else
    let idx := counter (vid, pid)
    (py_replace_space ("UNKNOWN_" ++ fmt04X vid ++ fmt04X pid ++ "_" ++
                       fmt04d idx),
     fun k => if k = (vid, pid) then idx + 1 else counter k)

/-- A device whose only effect-related attribute is an arity-0 camel-cased
spectrum setter for the `fast_charging` zone. -/
def envFastCharging : DeviceEnv :=
  { METHODS := [], attrs := [("setFastChargingSpectrum", 0)],
    DRIVER_MODE := false, mode_file_present := true, live_dpi := (0, 0),
    DPI_MAX := 16000, POLL_RATES := [125, 500, 1000] }

/-- State with only the `fast_charging` zone present, persisted with an
effect the device has no setter for. -/
def sFastCharging : DeviceState :=
  mkSingle "fast_charging" { defaultZone with present := true, effect := "wave" }

/-- A device with an arity-0 spectrum setter for the (single-word) `logo`
zone. -/
def envLogoSpectrum : DeviceEnv :=
  { METHODS := [], attrs := [("setLogoSpectrum", 0)], DRIVER_MODE := false,
    mode_file_present := true, live_dpi := (0, 0), DPI_MAX := 16000,
    POLL_RATES := [125, 500, 1000] }

/-- State with only the `logo` zone present, persisted with an unsupported
effect name. -/
def sLogoFoo : DeviceState :=
  mkSingle "logo" { defaultZone with present := true, effect := "foo" }

/-- A device with an arity-1 `logo` wave setter and an arity-9 `logo`
breathTriple setter. -/
def envLogoWave : DeviceEnv :=
  { METHODS := [], attrs := [("setLogoWave", 1), ("setLogoBreathTriple", 9)],
    DRIVER_MODE := false, mode_file_present := true, live_dpi := (0, 0),
    DPI_MAX := 16000, POLL_RATES := [125, 500, 1000] }

/-- The `logo` zone persisted with effect `wave` and wave direction 2. -/
def zLogoWave : ZoneInfo :=
  { defaultZone with present := true, effect := "wave", wave_dir := 2 }

/-- The `logo` zone persisted with effect `breathTriple` and nine distinct
colors. -/
def zLogoTriple : ZoneInfo :=
  { defaultZone with
    present := true, effect := "breathTriple",
    colors := [1, 2, 3, 4, 5, 6, 7, 8, 9] }

/-- A device environment for the empty-effect scenario. -/
def envEmptyEffect : DeviceEnv :=
  { METHODS := [], attrs := [("setLogoSpectrum", 0)], DRIVER_MODE := false,
    mode_file_present := true, live_dpi := (0, 0), DPI_MAX := 16000,
    POLL_RATES := [125, 500, 1000] }

/-- State with the `logo` zone present but its effect name persisted as the
empty string (which the load path accepts without validation). -/
def sEmptyEffect : DeviceState :=
  mkSingle "logo" { defaultZone with present := true, effect := "" }

/-- A notify scenario: two observers, propagation on, a parent registered. -/
def sNotify : DeviceState :=
  { baseState with
    observers := [5, 7], effect_sync_propagate_up := true,
    parent := some 0 }

/-- The same scenario with notifications disabled. -/
def sNotifyOff : DeviceState :=
  { sNotify with disable_notifications := true }

/-- A mouse-like environment for `close`: live DPI readback supported,
driver mode engaged, control file still present. -/
def envClose : DeviceEnv :=
  { METHODS := ["get_dpi_xy"], attrs := [("getDPI", 0)], DRIVER_MODE := true,
    mode_file_present := true, live_dpi := (800, 800), DPI_MAX := 16000,
    POLL_RATES := [125, 500, 1000] }

/-- An already-closed device state. -/
def sClosed : DeviceState :=
  { baseState with is_closed := true }

/-- A mouse environment for `restore_dpi_poll_rate`: DPI and poll-rate
setters present, `DPI_MAX` 1600, the usual three poll rates. -/
def envDpi : DeviceEnv :=
  { METHODS := [], attrs := [("setDPI", 2), ("setPollRate", 1)],
    DRIVER_MODE := false, mode_file_present := true, live_dpi := (0, 0),
    DPI_MAX := 1600, POLL_RATES := [125, 500, 1000] }

/-- A state persisted with DPI (5000, 5000) and a poll rate of 2000, both
outside the valid range of `envDpi`. -/
def sDpi : DeviceState :=
  { baseState with dpi := (5000, 5000), poll_rate := 2000 }

/-! ## Facts about the name helpers and the zone list -/

theorem capitalize_empty : capitalize_first_char "" = none := rfl

theorem capitalize_some_of_ne {s : String} (h : s ≠ "") :
    ∃ t, capitalize_first_char s = some t := by
  cases s with
  | mk l =>
    cases l with
    | nil => exact absurd rfl h
    | cons c cs => exact ⟨String.mk (Char.toUpper c :: cs), rfl⟩

theorem setterName_empty (i : String) : setterName i "" = none := by
  unfold setterName
  by_cases hb : i = "backlight"
  · simp [hb, capitalize_empty]
  · simp only [hb, if_false]
    cases h : capitalize_first_char i <;> simp [capitalize_empty]

theorem setterName_some {i e : String} (hi : i ≠ "") (he : e ≠ "") :
    ∃ nm, setterName i e = some nm := by
  obtain ⟨ci, hci⟩ := capitalize_some_of_ne hi
  obtain ⟨ce, hce⟩ := capitalize_some_of_ne he
  unfold setterName
  by_cases hb : i = "backlight"
  · exact ⟨"set" ++ ce, by simp [hb, hce]⟩
  · exact ⟨"set" ++ handle_underscores ci ++ ce, by simp [hb, hci, hce]⟩

theorem fallbackName_some {i : String} (hi : i ≠ "") :
    ∃ fn, fallbackName i = some fn := by
  obtain ⟨ci, hci⟩ := capitalize_some_of_ne hi
  unfold fallbackName
  by_cases hb : i = "backlight"
  · exact ⟨"setSpectrum", by simp [hb]⟩
  · exact ⟨"set" ++ ci ++ "Spectrum", by simp [hb, hci]⟩

theorem ZONES_nodup : ZONES.Nodup := by decide

theorem ZONES_ne_empty : ∀ j ∈ ZONES, j ≠ "" := by decide

theorem setZone_self (s : DeviceState) (i : String) (z : ZoneInfo) :
    (setZone s i z).zones i = z := by simp [setZone]

theorem setZone_other (s : DeviceState) {i j : String} (z : ZoneInfo)
    (h : j ≠ i) : (setZone s i z).zones j = s.zones j := by simp [setZone, h]

/-! ## Per-zone lemmas about `restore_zone` -/

theorem restore_zone_skip {env : DeviceEnv} {s : DeviceState} {i : String}
    (h : (s.zones i).present = false) :
    restore_zone env s i = some (s, []) := by
  simp [restore_zone, h]

/-- A successful `restore_zone` either leaves the state unchanged or replaces
the processed zone's effect by `spectrum`. -/
theorem restore_zone_shape {env : DeviceEnv} {s : DeviceState} {i : String}
    {s' : DeviceState} {cs : List Call}
    (h : restore_zone env s i = some (s', cs)) :
    s' = s ∨ s' = setZone s i { s.zones i with effect := "spectrum" } := by
  unfold restore_zone at h
  repeat' split at h
  all_goals
    first
    | exact Option.noConfusion h
    | (simp only [Option.some.injEq, Prod.mk.injEq] at h
       exact Or.inl h.1.symm)
    | (simp only [Option.some.injEq, Prod.mk.injEq] at h
       exact Or.inr h.1.symm)

theorem restore_zone_frame {env : DeviceEnv} {s : DeviceState} {i : String}
    {s' : DeviceState} {cs : List Call}
    (h : restore_zone env s i = some (s', cs)) :
    ∀ j, j ≠ i → s'.zones j = s.zones j := by
  intro j hj
  rcases restore_zone_shape h with rfl | rfl
  · rfl
  · exact setZone_other s _ hj

theorem restore_zone_none_of_empty {env : DeviceEnv} {t : DeviceState}
    {i : String} (hp : (t.zones i).present = true)
    (he : (t.zones i).effect = "") :
    restore_zone env t i = none := by
  simp [restore_zone, hp, he, setterName_empty]

theorem restore_zone_total {env : DeviceEnv} {s : DeviceState} {i : String}
    (hi : i ≠ "")
    (he : (s.zones i).present = true → (s.zones i).effect ≠ "") :
    (restore_zone env s i).isSome = true := by
  by_cases hp : (s.zones i).present = true
  · obtain ⟨nm, hnm⟩ := setterName_some hi (he hp)
    obtain ⟨fn, hfn⟩ := fallbackName_some hi
    cases hl : lookupArity env nm with
    | some ar => simp [restore_zone, hp, hnm, hl]
    | none =>
      by_cases hsp : (s.zones i).effect = "spectrum"
      · rw [hsp] at hnm
        simp [restore_zone, hp, hsp, hnm, hl]
      · cases hl2 : lookupArity env fn with
        | some ar2 => simp [restore_zone, hp, hnm, hl, hsp, hfn, hl2]
        | none => simp [restore_zone, hp, hnm, hl, hsp, hfn, hl2]
  · have hp' : (s.zones i).present = false := by simpa using hp
    simp [restore_zone_skip hp']

theorem restore_zone_inv {env : DeviceEnv} {s : DeviceState} {i : String}
    {s' : DeviceState} {cs : List Call} (hiz : i ∈ ZONES)
    (h : restore_zone env s i = some (s', cs))
    (hInv : ∀ j ∈ ZONES, (s.zones j).present = true → (s.zones j).effect ≠ "") :
    ∀ j ∈ ZONES, (s'.zones j).present = true → (s'.zones j).effect ≠ "" := by
  intro j hj
  rcases restore_zone_shape h with rfl | rfl
  · exact hInv j hj
  · by_cases hji : j = i
    · subst hji
      rw [setZone_self]
      intro _
      simp
    · rw [setZone_other s _ hji]
      exact hInv j hj

/-- After a successful `restore_zone`, the processed zone is in a state the
function accepts as final: either its effect is `spectrum`, or its composed
setter name resolves. -/
theorem restore_zone_post {env : DeviceEnv} {s : DeviceState} {i : String}
    {s' : DeviceState} {cs : List Call}
    (h : restore_zone env s i = some (s', cs)) :
    (s'.zones i).present = true →
      (s'.zones i).effect = "spectrum" ∨
      ∃ nm, setterName i (s'.zones i).effect = some nm ∧
            (lookupArity env nm).isSome = true := by
  intro hp
  unfold restore_zone at h
  split at h
  case isTrue hpres =>
    split at h
    case h_1 => exact Option.noConfusion h
    case h_2 name heq =>
      split at h
      case h_1 ar hl =>
        simp only [Option.some.injEq, Prod.mk.injEq] at h
        obtain ⟨rfl, -⟩ := (And.intro h.1.symm h.2)
        exact Or.inr ⟨name, heq, by simp [hl]⟩
      case h_2 hl =>
        split at h
        case isTrue hsp =>
          simp only [Option.some.injEq, Prod.mk.injEq] at h
          obtain ⟨rfl, -⟩ := (And.intro h.1.symm h.2)
          exact Or.inl hsp
        case isFalse hsp =>
          split at h
          case h_1 => exact Option.noConfusion h
          case h_2 fn hfn =>
            split at h
            all_goals
              simp only [Option.some.injEq, Prod.mk.injEq] at h
              obtain ⟨rfl, -⟩ := (And.intro h.1.symm h.2)
              rw [setZone_self]
              exact Or.inl rfl
  case isFalse hpres =>
    simp only [Option.some.injEq, Prod.mk.injEq] at h
    obtain ⟨rfl, -⟩ := (And.intro h.1.symm h.2)
    exact absurd hp (by simp [hpres])

/-- `restore_zone` leaves the state unchanged (only emitting invocations)
whenever the zone is absent, already `spectrum`, or resolved. -/
theorem restore_zone_no_change {env : DeviceEnv} {t : DeviceState}
    {i : String} (hi : i ≠ "")
    (hcond : (t.zones i).present = true →
      (t.zones i).effect = "spectrum" ∨
      ∃ nm, setterName i (t.zones i).effect = some nm ∧
            (lookupArity env nm).isSome = true) :
    ∃ cs2, restore_zone env t i = some (t, cs2) := by
  by_cases hp : (t.zones i).present = true
  · rcases hcond hp with hsp | ⟨nm, hnm, hsome⟩
    · have he' : (t.zones i).effect ≠ "" := by rw [hsp]; decide
      obtain ⟨nm, hnm⟩ := setterName_some hi he'
      rw [hsp] at hnm
      cases hl : lookupArity env nm with
      | some ar =>
        exact ⟨dispatchCalls nm ar "spectrum" (t.zones i).colors
                 (t.zones i).speed (t.zones i).wave_dir,
               by simp [restore_zone, hp, hsp, hnm, hl]⟩
      | none => exact ⟨[], by simp [restore_zone, hp, hsp, hnm, hl]⟩
    · obtain ⟨ar, hl⟩ := Option.isSome_iff_exists.mp hsome
      exact ⟨dispatchCalls nm ar (t.zones i).effect (t.zones i).colors
               (t.zones i).speed (t.zones i).wave_dir,
             by simp [restore_zone, hp, hnm, hl]⟩
  · have hp' : (t.zones i).present = false := by simpa using hp
    exact ⟨[], restore_zone_skip hp'⟩

/-! ## Lemmas about the zone loop of `restore_effect` -/

theorem go_cons_none {env : DeviceEnv} {i : String} {rest : List String}
    {s : DeviceState} (hz : restore_zone env s i = none) :
    restore_effect_go env (i :: rest) s = none := by
  simp [restore_effect_go, hz]

theorem go_cons_some {env : DeviceEnv} {i : String} {rest : List String}
    {s s1 : DeviceState} {cs1 : List Call}
    (hz : restore_zone env s i = some (s1, cs1)) :
    restore_effect_go env (i :: rest) s =
      match restore_effect_go env rest s1 with
      | none => none
      | some (s2, cs2) => some (s2, cs1 ++ cs2) := by
  simp [restore_effect_go, hz]

theorem go_skip_all {env : DeviceEnv} :
    ∀ (l : List String) (s : DeviceState),
    (∀ j ∈ l, (s.zones j).present = false) →
    restore_effect_go env l s = some (s, []) := by
  intro l
  induction l with
  | nil => intro s _; rfl
  | cons i rest ih =>
    intro s h
    have h1 : restore_zone env s i = some (s, []) :=
      restore_zone_skip (h i (by simp))
    have h2 := ih s (fun j hj => h j (by simp [hj]))
    rw [go_cons_some h1, h2]
    rfl

theorem go_frame {env : DeviceEnv} :
    ∀ (l : List String) (s s' : DeviceState) (cs : List Call) (i : String),
    i ∉ l → restore_effect_go env l s = some (s', cs) →
    s'.zones i = s.zones i := by
  intro l
  induction l with
  | nil =>
    intro s s' cs i _ h
    simp only [restore_effect_go, Option.some.injEq, Prod.mk.injEq] at h
    rw [← h.1]
  | cons j rest ih =>
    intro s s' cs i hni h
    have hij : i ≠ j := fun hh => hni (by simp [hh])
    have hnr : i ∉ rest := fun hh => hni (by simp [hh])
    cases hz : restore_zone env s j with
    | none => rw [go_cons_none hz] at h; exact Option.noConfusion h
    | some p =>
      obtain ⟨s1, cs1⟩ := p
      rw [go_cons_some hz] at h
      cases hg : restore_effect_go env rest s1 with
      | none => rw [hg] at h; exact Option.noConfusion h
      | some q =>
        obtain ⟨s2, cs2⟩ := q
        rw [hg] at h
        simp only [Option.some.injEq, Prod.mk.injEq] at h
        rw [← h.1]
        rw [ih s1 s2 cs2 i hnr hg, restore_zone_frame hz i hij]

theorem go_none {env : DeviceEnv} :
    ∀ (l : List String) (t : DeviceState) (i : String),
    i ∈ l → (t.zones i).present = true → (t.zones i).effect = "" →
    restore_effect_go env l t = none := by
  intro l
  induction l with
  | nil => intro t i h; exact absurd h (List.not_mem_nil i)
  | cons j rest ih =>
    intro t i hmem hp he
    by_cases hij : i = j
    · subst hij
      exact go_cons_none (restore_zone_none_of_empty hp he)
    · cases hz : restore_zone env t j with
      | none => exact go_cons_none hz
      | some p =>
        obtain ⟨t1, cs1⟩ := p
        have hmem' : i ∈ rest := by
          rcases List.mem_cons.mp hmem with h | h
          · exact absurd h hij
          · exact h
        have hfr : t1.zones i = t.zones i := restore_zone_frame hz i hij
        have h2 := ih t1 i hmem' (by rw [hfr]; exact hp) (by rw [hfr]; exact he)
        rw [go_cons_some hz, h2]

theorem go_total {env : DeviceEnv} :
    ∀ (l : List String) (s : DeviceState),
    (∀ j ∈ l, j ∈ ZONES) →
    (∀ j ∈ ZONES, (s.zones j).present = true → (s.zones j).effect ≠ "") →
    ∃ s' cs, restore_effect_go env l s = some (s', cs) ∧
      (∀ j ∈ ZONES, (s'.zones j).present = true → (s'.zones j).effect ≠ "") := by
  intro l
  induction l with
  | nil => intro s _ hInv; exact ⟨s, [], rfl, hInv⟩
  | cons i rest ih =>
    intro s hl hInv
    have hiz : i ∈ ZONES := hl i (by simp)
    have hi : i ≠ "" := ZONES_ne_empty i hiz
    obtain ⟨r, hr⟩ := Option.isSome_iff_exists.mp
      (show (restore_zone env s i).isSome = true from
        restore_zone_total hi (hInv i hiz))
    obtain ⟨s1, cs1⟩ := r
    have hInv1 := restore_zone_inv hiz hr hInv
    obtain ⟨s', cs2, hgo, hInv'⟩ :=
      ih s1 (fun j hj => hl j (by simp [hj])) hInv1
    exact ⟨s', cs1 ++ cs2, by rw [go_cons_some hr, hgo], hInv'⟩

theorem go_idem {env : DeviceEnv} :
    ∀ (l : List String), (∀ j ∈ l, j ∈ ZONES) → l.Nodup →
    ∀ (s s' : DeviceState) (cs : List Call),
    restore_effect_go env l s = some (s', cs) →
    ∃ cs2, restore_effect_go env l s' = some (s', cs2) := by
  intro l
  induction l with
  | nil =>
    intro _ _ s s' cs h
    simp only [restore_effect_go, Option.some.injEq, Prod.mk.injEq] at h
    obtain ⟨rfl, -⟩ := (And.intro h.1.symm h.2)
    exact ⟨[], rfl⟩
  | cons i rest ih =>
    intro hl hnd s s' cs h
    obtain ⟨hir, hndr⟩ := List.nodup_cons.mp hnd
    have hiz : i ∈ ZONES := hl i (by simp)
    cases hz : restore_zone env s i with
    | none => rw [go_cons_none hz] at h; exact Option.noConfusion h
    | some p =>
      obtain ⟨s1, cs1⟩ := p
      rw [go_cons_some hz] at h
      cases hg : restore_effect_go env rest s1 with
      | none => rw [hg] at h; exact Option.noConfusion h
      | some q =>
        obtain ⟨s2, cs2⟩ := q
        rw [hg] at h
        simp only [Option.some.injEq, Prod.mk.injEq] at h
        have hs := h.1
        subst hs
        have hfr : s2.zones i = s1.zones i := go_frame rest s1 s2 cs2 i hir hg
        have hpost := restore_zone_post hz
        obtain ⟨d, hd⟩ :=
          show ∃ cs2, restore_zone env s2 i = some (s2, cs2) from
            restore_zone_no_change (ZONES_ne_empty i hiz)
              (by intro hp; rw [hfr] at hp ⊢; exact hpost hp)
        obtain ⟨cs3, hg2⟩ := ih (fun j hj => hl j (by simp [hj])) hndr s1 s2 cs2 hg
        exact ⟨d ++ cs3, by rw [go_cons_some hd, hg2]⟩

theorem go_only {env : DeviceEnv} :
    ∀ (l : List String) (s : DeviceState) (i : String),
    l.Nodup → i ∈ l → (∀ j ∈ l, j ≠ i → (s.zones j).present = false) →
    restore_effect_go env l s = restore_zone env s i := by
  intro l
  induction l with
  | nil => intro s i _ h; exact absurd h (List.not_mem_nil i)
  | cons j rest ih =>
    intro s i hnd hmem habs
    obtain ⟨hjr, hndr⟩ := List.nodup_cons.mp hnd
    by_cases hij : j = i
    · subst hij
      cases hz : restore_zone env s j with
      | none => exact go_cons_none hz
      | some p =>
        obtain ⟨s1, cs1⟩ := p
        have hrest : ∀ k ∈ rest, (s1.zones k).present = false := by
          intro k hk
          have hkj : k ≠ j := fun hh => hjr (hh ▸ hk)
          rw [restore_zone_frame hz k hkj]
          exact habs k (by simp [hk]) hkj
        simp [go_cons_some hz, go_skip_all rest s1 hrest, hz]
    · have hmem' : i ∈ rest := by
        rcases List.mem_cons.mp hmem with h | h
        · exact absurd h.symm hij
        · exact h
      have hj_abs : (s.zones j).present = false := habs j (by simp) hij
      have hgo := ih s i hndr hmem' (fun k hk hki => habs k (by simp [hk]) hki)
      rw [go_cons_some (restore_zone_skip hj_abs), hgo]
      cases hr : restore_zone env s i with
      | none => rfl
      | some p =>
        obtain ⟨a, b⟩ := p
        simp

/-- On a state where only zone `i` is present and the composed setter name
resolves to an attribute of arity `ar`, `restore_effect` performs exactly the
arity dispatch for that setter and leaves the state unchanged. -/
theorem restore_effect_single_found {env : DeviceEnv} {z : ZoneInfo}
    {i name : String} {ar : Nat}
    (hiz : i ∈ ZONES) (hp : z.present = true)
    (hn : setterName i z.effect = some name)
    (ha : lookupArity env name = some ar) :
    restore_effect env (mkSingle i z) =
      some (mkSingle i z,
            dispatchCalls name ar z.effect z.colors z.speed z.wave_dir) := by
  have hzz : (mkSingle i z).zones i = z := by simp [mkSingle]
  have habs : ∀ j ∈ ZONES, j ≠ i → ((mkSingle i z).zones j).present = false := by
    intro j _ hji
    simp [mkSingle, hji, defaultZone]
  unfold restore_effect
  rw [go_only ZONES (mkSingle i z) i ZONES_nodup hiz habs]
  simp [restore_zone, hzz, hp, hn, ha]

/-- C1: for every present zone whose composed setter resolves,
`restore_effect` dispatches by the setter's parameter count with exactly the
documented argument list and order: arity 0 → no arguments; arity 1 → `speed`
for `starlightRandom` and `wave_dir` for the directional effects `wave` and
`wheel`; arity 3 → `colors[0..2]`; arity 4 → `colors[0..2]` plus `speed` for
`starlightSingle` and `reactive`; arity 6 → `colors[0..5]`; arity 7 →
`colors[0..5]` plus `speed`; arity 9 → all nine stored colors. -/
theorem restore_effect_dispatch_table :
    (∀ (env : DeviceEnv) (z : ZoneInfo) (i name : String),
      i ∈ ZONES → z.present = true →
      setterName i z.effect = some name → lookupArity env name = some 0 →
      restore_effect env (mkSingle i z) =
        some (mkSingle i z, [(name, [])])) ∧
    (∀ (env : DeviceEnv) (z : ZoneInfo) (i name : String),
      i ∈ ZONES → z.present = true → z.effect = "starlightRandom" →
      setterName i z.effect = some name → lookupArity env name = some 1 →
      restore_effect env (mkSingle i z) =
        some (mkSingle i z, [(name, [z.speed])])) ∧
    (∀ (env : DeviceEnv) (z : ZoneInfo) (i name : String),
      i ∈ ZONES → z.present = true → z.effect = "wave" →
      setterName i z.effect = some name → lookupArity env name = some 1 →
      restore_effect env (mkSingle i z) =
        some (mkSingle i z, [(name, [z.wave_dir])])) ∧
    (∀ (env : DeviceEnv) (z : ZoneInfo) (i name : String),
      i ∈ ZONES → z.present = true → z.effect = "wheel" →
      setterName i z.effect = some name → lookupArity env name = some 1 →
      restore_effect env (mkSingle i z) =
        some (mkSingle i z, [(name, [z.wave_dir])])) ∧
    (∀ (env : DeviceEnv) (z : ZoneInfo) (i name : String)
       (c0 c1 c2 c3 c4 c5 c6 c7 c8 : Int),
      i ∈ ZONES → z.present = true →
      z.colors = [c0, c1, c2, c3, c4, c5, c6, c7, c8] →
      setterName i z.effect = some name → lookupArity env name = some 3 →
      restore_effect env (mkSingle i z) =
        some (mkSingle i z, [(name, [c0, c1, c2])])) ∧
    (∀ (env : DeviceEnv) (z : ZoneInfo) (i name : String)
       (c0 c1 c2 c3 c4 c5 c6 c7 c8 : Int),
      i ∈ ZONES → z.present = true → z.effect = "starlightSingle" →
      z.colors = [c0, c1, c2, c3, c4, c5, c6, c7, c8] →
      setterName i z.effect = some name → lookupArity env name = some 4 →
      restore_effect env (mkSingle i z) =
        some (mkSingle i z, [(name, [c0, c1, c2, z.speed])])) ∧
    (∀ (env : DeviceEnv) (z : ZoneInfo) (i name : String)
       (c0 c1 c2 c3 c4 c5 c6 c7 c8 : Int),
      i ∈ ZONES → z.present = true → z.effect = "reactive" →
      z.colors = [c0, c1, c2, c3, c4, c5, c6, c7, c8] →
      setterName i z.effect = some name → lookupArity env name = some 4 →
      restore_effect env (mkSingle i z) =
        some (mkSingle i z, [(name, [c0, c1, c2, z.speed])])) ∧
    (∀ (env : DeviceEnv) (z : ZoneInfo) (i name : String)
       (c0 c1 c2 c3 c4 c5 c6 c7 c8 : Int),
      i ∈ ZONES → z.present = true →
      z.colors = [c0, c1, c2, c3, c4, c5, c6, c7, c8] →
      setterName i z.effect = some name → lookupArity env name = some 6 →
      restore_effect env (mkSingle i z) =
        some (mkSingle i z, [(name, [c0, c1, c2, c3, c4, c5])])) ∧
    (∀ (env : DeviceEnv) (z : ZoneInfo) (i name : String)
       (c0 c1 c2 c3 c4 c5 c6 c7 c8 : Int),
      i ∈ ZONES → z.present = true →
      z.colors = [c0, c1, c2, c3, c4, c5, c6, c7, c8] →
      setterName i z.effect = some name → lookupArity env name = some 7 →
      restore_effect env (mkSingle i z) =
        some (mkSingle i z, [(name, [c0, c1, c2, c3, c4, c5, z.speed])])) ∧
    (∀ (env : DeviceEnv) (z : ZoneInfo) (i name : String)
       (c0 c1 c2 c3 c4 c5 c6 c7 c8 : Int),
      i ∈ ZONES → z.present = true →
      z.colors = [c0, c1, c2, c3, c4, c5, c6, c7, c8] →
      setterName i z.effect = some name → lookupArity env name = some 9 →
      restore_effect env (mkSingle i z) =
        some (mkSingle i z,
              [(name, [c0, c1, c2, c3, c4, c5, c6, c7, c8])])) := by
  refine ⟨?_, ?_, ?_, ?_, ?_, ?_, ?_, ?_, ?_, ?_⟩
  · intro env z i name hiz hp hn ha
    rw [restore_effect_single_found hiz hp hn ha]
    simp [dispatchCalls]
  · intro env z i name hiz hp he hn ha
    rw [restore_effect_single_found hiz hp hn ha]
    simp [dispatchCalls, he]
  · intro env z i name hiz hp he hn ha
    rw [restore_effect_single_found hiz hp hn ha]
    simp [dispatchCalls, he]
  · intro env z i name hiz hp he hn ha
    rw [restore_effect_single_found hiz hp hn ha]
    simp [dispatchCalls, he]
  · intro env z i name c0 c1 c2 c3 c4 c5 c6 c7 c8 hiz hp hc hn ha
    rw [restore_effect_single_found hiz hp hn ha]
    simp [dispatchCalls, hc]
  · intro env z i name c0 c1 c2 c3 c4 c5 c6 c7 c8 hiz hp he hc hn ha
    rw [restore_effect_single_found hiz hp hn ha]
    simp [dispatchCalls, he, hc]
  · intro env z i name c0 c1 c2 c3 c4 c5 c6 c7 c8 hiz hp he hc hn ha
    rw [restore_effect_single_found hiz hp hn ha]
    simp [dispatchCalls, he, hc]
  · intro env z i name c0 c1 c2 c3 c4 c5 c6 c7 c8 hiz hp hc hn ha
    rw [restore_effect_single_found hiz hp hn ha]
    simp [dispatchCalls, hc]
  · intro env z i name c0 c1 c2 c3 c4 c5 c6 c7 c8 hiz hp hc hn ha
    rw [restore_effect_single_found hiz hp hn ha]
    simp [dispatchCalls, hc]
  · intro env z i name c0 c1 c2 c3 c4 c5 c6 c7 c8 hiz hp hc hn ha
    rw [restore_effect_single_found hiz hp hn ha]
    simp [dispatchCalls, hc]

/-- C1 witness: zone `logo` persisted with effect `wave`, `wave_dir` 2 and an
arity-1 setter is dispatched with the single argument 2; the arity-9 row at
nine concrete colors. -/
theorem restore_effect_dispatch_table_witness :
    restore_effect envLogoWave (mkSingle "logo" zLogoWave) =
      some (mkSingle "logo" zLogoWave, [("setLogoWave", [2])]) ∧
    restore_effect envLogoWave (mkSingle "logo" zLogoTriple) =
      some (mkSingle "logo" zLogoTriple,
            [("setLogoBreathTriple", [1, 2, 3, 4, 5, 6, 7, 8, 9])]) := by
  constructor
  · exact restore_effect_dispatch_table.2.2.1 envLogoWave zLogoWave "logo"
      "setLogoWave" (by decide) (by decide) (by decide) (by decide) (by decide)
  · exact restore_effect_dispatch_table.2.2.2.2.2.2.2.2.2 envLogoWave
      zLogoTriple "logo" "setLogoBreathTriple" 1 2 3 4 5 6 7 8 9
      (by decide) (by decide) (by decide) (by decide) (by decide)

theorem go_append {env : DeviceEnv} :
    ∀ (l1 l2 : List String) (s s1 : DeviceState) (cs1 : List Call),
    restore_effect_go env l1 s = some (s1, cs1) →
    restore_effect_go env (l1 ++ l2) s =
      match restore_effect_go env l2 s1 with
      | none => none
      | some (s2, cs2) => some (s2, cs1 ++ cs2) := by
  intro l1
  induction l1 with
  | nil =>
    intro l2 s s1 cs1 h
    simp only [restore_effect_go, Option.some.injEq, Prod.mk.injEq] at h
    have h1 := h.1
    subst h1
    have h2 := h.2
    subst h2
    rw [List.nil_append]
    cases restore_effect_go env l2 s with
    | none => rfl
    | some r => obtain ⟨sc, csc⟩ := r; simp
  | cons j rest ih =>
    intro l2 s s1 cs1 h
    cases hz : restore_zone env s j with
    | none => rw [go_cons_none hz] at h; exact Option.noConfusion h
    | some p =>
      obtain ⟨sa, csa⟩ := p
      rw [go_cons_some hz] at h
      cases hg : restore_effect_go env rest sa with
      | none => rw [hg] at h; exact Option.noConfusion h
      | some q =>
        obtain ⟨sb, csb⟩ := q
        rw [hg] at h
        simp only [Option.some.injEq, Prod.mk.injEq] at h
        have hb := h.1
        subst hb
        have hc := h.2
        rw [show (j :: rest) ++ l2 = j :: (rest ++ l2) from rfl,
            go_cons_some hz, ih l2 sa sb csb hg]
        cases hg2 : restore_effect_go env l2 sb with
        | none => rfl
        | some r =>
          obtain ⟨sc, csc⟩ := r
          simp [← hc, List.append_assoc]

/-- C9: `restore_effect` is total only under the precondition that every
present zone's effect name is nonempty: a present zone whose persisted effect
is the empty string (accepted unvalidated by the load path) makes the
`capitalize_first_char` indexing step fail, and the error escapes
`restore_effect` (result `none`) instead of being recovered by the spectrum
fallback; conversely, when every present zone's effect is nonempty,
`restore_effect` always returns. -/
theorem restore_effect_empty_effect_crash :
    (∀ (env : DeviceEnv) (s : DeviceState) (i : String),
      i ∈ ZONES → (s.zones i).present = true → (s.zones i).effect = "" →
      restore_effect env s = none) ∧
    (∀ (env : DeviceEnv) (s : DeviceState),
      (∀ j ∈ ZONES, (s.zones j).present = true → (s.zones j).effect ≠ "") →
      (restore_effect env s).isSome = true) := by
  constructor
  · intro env s i hiz hp he
    exact go_none ZONES s i hiz hp he
  · intro env s hInv
    have hgt : ∃ s' cs, restore_effect_go env ZONES s = some (s', cs) ∧
        (∀ j ∈ ZONES, (s'.zones j).present = true →
          (s'.zones j).effect ≠ "") :=
      go_total ZONES s (fun j hj => hj) hInv
    obtain ⟨s', cs, hgo, -⟩ := hgt
    simp [restore_effect, hgo]

/-- C9 witness: with zone `logo` present and an empty persisted effect name
the run fails; on the all-defaults state it succeeds. -/
theorem restore_effect_empty_effect_crash_witness :
    restore_effect envEmptyEffect sEmptyEffect = none ∧
    (restore_effect envEmptyEffect baseState).isSome = true := by
  constructor
  · exact restore_effect_empty_effect_crash.1 envEmptyEffect sEmptyEffect
      "logo" (by decide) (by decide) (by decide)
  · exact restore_effect_empty_effect_crash.2 envEmptyEffect baseState
      (by decide)

/-- C3 counterexample: the `fast_charging` zone, persisted with an effect the
device has no setter for, on a device that does have an arity-0 spectrum
setter for that zone under its camel-cased name. `restore_effect` corrects
the stored effect name to `spectrum` but invokes no setter at all — the
fallback looks up `setFast_chargingSpectrum` (composed without underscore
conversion), which does not exist — refuting the claim that the zone's
spectrum setter is invoked for every zone. -/
theorem restore_effect_fallback_skips_fast_charging :
    lookupArity envFastCharging "setFastChargingSpectrum" = some 0 ∧
    (sFastCharging.zones "fast_charging").present = true ∧
    (sFastCharging.zones "fast_charging").effect = "wave" ∧
    setterName "fast_charging" "wave" = some "setFastChargingWave" ∧
    lookupArity envFastCharging "setFastChargingWave" = none ∧
    fallbackName "fast_charging" = some "setFast_chargingSpectrum" ∧
    (restore_effect envFastCharging sFastCharging).map (fun r => r.2) =
      some [] ∧
    (restore_effect envFastCharging sFastCharging).map
      (fun r => (r.1.zones "fast_charging").effect) = some "spectrum" := by
  decide

/-- C3 (amended): for every present zone whose stored effect has no matching
setter and is not `spectrum`, `restore_effect` corrects the zone's effect to
`spectrum` and records it; the zone's spectrum setter is invoked only when
the fallback name — composed without underscore conversion — resolves (so in
particular an arity-0 fallback setter that does exist is called with no
arguments, but for multi-word zone names such as `fast_charging` whose
setters use camel case the lookup fails and the zone is skipped without
error); the correction happens exactly once: a second call from the
resulting state changes no state at all. -/
theorem restore_effect_spectrum_correction :
    ∀ (env : DeviceEnv) (s : DeviceState) (i : String),
    i ∈ ZONES →
    (∀ j ∈ ZONES, (s.zones j).present = true → (s.zones j).effect ≠ "") →
    (s.zones i).present = true →
    (s.zones i).effect ≠ "spectrum" →
    (∀ nm, setterName i (s.zones i).effect = some nm →
      lookupArity env nm = none) →
    ∃ s' cs, restore_effect env s = some (s', cs) ∧
      (s'.zones i).effect = "spectrum" ∧
      (∀ fn, fallbackName i = some fn → lookupArity env fn = some 0 →
        (fn, ([] : List Int)) ∈ cs) ∧
      ∃ cs2, restore_effect env s' = some (s', cs2) := by
  intro env s i hiz hInv hp hnsp hmiss
  obtain ⟨l1, l2, hsplit⟩ := List.append_of_mem hiz
  have hnd : (l1 ++ i :: l2).Nodup := hsplit ▸ ZONES_nodup
  obtain ⟨hnd1, hnd2, hdisj⟩ := List.nodup_append.mp hnd
  have hil2 : i ∉ l2 := (List.nodup_cons.mp hnd2).1
  have hil1 : i ∉ l1 := fun hh => hdisj hh (by simp)
  have hsub1 : ∀ j ∈ l1, j ∈ ZONES := by
    intro j hj; rw [hsplit]; exact List.mem_append_left _ hj
  have hsub2 : ∀ j ∈ l2, j ∈ ZONES := by
    intro j hj; rw [hsplit]; exact List.mem_append_right _ (by simp [hj])
  have hgt1 : ∃ s1 cs1, restore_effect_go env l1 s = some (s1, cs1) ∧
      (∀ j ∈ ZONES, (s1.zones j).present = true → (s1.zones j).effect ≠ "") :=
    go_total l1 s hsub1 hInv
  obtain ⟨s1, cs1, hgo1, hInv1⟩ := hgt1
  have hfr1 : s1.zones i = s.zones i := go_frame l1 s s1 cs1 i hil1 hgo1
  have hi : i ≠ "" := ZONES_ne_empty i hiz
  have he : (s.zones i).effect ≠ "" := hInv i hiz hp
  obtain ⟨nm, hnm⟩ := setterName_some hi he
  have hl : lookupArity env nm = none := hmiss nm hnm
  obtain ⟨fn, hfn⟩ := fallbackName_some hi
  have hp1 : (s1.zones i).present = true := by rw [hfr1]; exact hp
  have hnm1 : setterName i (s1.zones i).effect = some nm := by
    rw [hfr1]; exact hnm
  have hnsp1 : ¬ (s1.zones i).effect = "spectrum" := by rw [hfr1]; exact hnsp
  obtain ⟨csI, hstepEq, hmem0⟩ :
      ∃ csI, restore_zone env s1 i =
        some (setZone s1 i { s1.zones i with effect := "spectrum" }, csI) ∧
        (lookupArity env fn = some 0 → (fn, ([] : List Int)) ∈ csI) := by
    cases hl2 : lookupArity env fn with
    | none =>
      refine ⟨[], ?_, ?_⟩
      · simp [restore_zone, hp1, hnm1, hl, hnsp1, hfn, hl2]
      · intro hcontra; exact Option.noConfusion hcontra
    | some ar =>
      refine ⟨dispatchCalls fn ar "spectrum" (s1.zones i).colors
                (s1.zones i).speed (s1.zones i).wave_dir, ?_, ?_⟩
      · simp [restore_zone, hp1, hnm1, hl, hnsp1, hfn, hl2]
      · intro h0
        injection h0 with h0
        subst h0
        simp [dispatchCalls]
  have hInv2 := restore_zone_inv hiz hstepEq hInv1
  have hgt2 : ∃ s' cs2, restore_effect_go env l2
      (setZone s1 i { s1.zones i with effect := "spectrum" }) =
        some (s', cs2) ∧
      (∀ j ∈ ZONES, (s'.zones j).present = true → (s'.zones j).effect ≠ "") :=
    go_total l2 (setZone s1 i { s1.zones i with effect := "spectrum" })
      hsub2 hInv2
  obtain ⟨s', cs2, hgo2, hInv'⟩ := hgt2
  have hfr2 := go_frame l2 _ s' cs2 i hil2 hgo2
  have heff : (s'.zones i).effect = "spectrum" := by
    rw [hfr2, setZone_self]
  have hrun : restore_effect env s = some (s', cs1 ++ (csI ++ cs2)) := by
    unfold restore_effect
    rw [hsplit, go_append l1 (i :: l2) s s1 cs1 hgo1, go_cons_some hstepEq,
        hgo2]
  obtain ⟨cs3, hidem⟩ := go_idem ZONES (fun j hj => hj) ZONES_nodup s s'
    (cs1 ++ (csI ++ cs2)) hrun
  refine ⟨s', cs1 ++ (csI ++ cs2), hrun, heff, ?_, ⟨cs3, hidem⟩⟩
  intro fn' hfn' h0
  rw [hfn] at hfn'
  injection hfn' with hfn'
  subst hfn'
  have := hmem0 h0
  simp only [List.mem_append]
  exact Or.inr (Or.inl this)

/-- C3 witness: the single-word zone `logo` with unsupported effect `foo` on
a device with an arity-0 `setLogoSpectrum`: the effect is corrected, the
spectrum setter is invoked with no arguments, and a second call changes
nothing. -/
theorem restore_effect_spectrum_correction_witness :
    ∃ s' cs, restore_effect envLogoSpectrum sLogoFoo = some (s', cs) ∧
      (s'.zones "logo").effect = "spectrum" ∧
      (∀ fn, fallbackName "logo" = some fn →
        lookupArity envLogoSpectrum fn = some 0 →
        (fn, ([] : List Int)) ∈ cs) ∧
      ∃ cs2, restore_effect envLogoSpectrum s' = some (s', cs2) := by
  refine restore_effect_spectrum_correction envLogoSpectrum sLogoFoo "logo"
    (by decide) (by decide) (by decide) (by decide) ?_
  intro nm h
  rw [show setterName "logo" (sLogoFoo.zones "logo").effect =
        some "setLogoFoo" from by decide] at h
  injection h with h
  subst h
  decide

/-- C2 (the code deviates from the claim): the colors-loading block accepts
exactly-9 valid strings, but its wrong-length handling is broken.  The
`len(...) != 9` check (line 301) inspects the in-place-assigned 9-slot list,
whose length is always 9, so it can never fire: a valid string of fewer than
9 integers partially overwrites the palette instead of resetting it, and a
valid string of more than 9 integers raises an uncaught `IndexError`
(`Except.error`), failing the load.  Out-of-range and non-integer tokens do
reset to the default palette as claimed. -/
theorem load_colors_wrong_length_buggy :
    load_colors default_colors "10 20 30 40 50 60 70 80 90" =
      Except.ok [10, 20, 30, 40, 50, 60, 70, 80, 90] ∧
    load_colors default_colors "1 2 3" =
      Except.ok [1, 2, 3, 0, 255, 255, 0, 0, 255] ∧
    ([1, 2, 3, 0, 255, 255, 0, 0, 255] : List Int) ≠ default_colors ∧
    load_colors default_colors "1 2 3 4 5 6 7 8 9 10" = Except.error () ∧
    load_colors default_colors "1 2 300" = Except.ok default_colors ∧
    load_colors default_colors "1 2 x" = Except.ok default_colors := by
  exact ⟨rfl, rfl, by decide, rfl, rfl, rfl⟩

/-! ## Serial-number generation -/

theorem hexDigitCharUpper_ne_space : ∀ d, hexDigitCharUpper d ≠ ' ' := by
  intro d
  unfold hexDigitCharUpper
  split <;> decide

theorem map_repl_space_id : ∀ (l : List Char), (∀ c ∈ l, c ≠ ' ') →
    l.map repl_space_char = l := by
  intro l
  induction l with
  | nil => intro _; rfl
  | cons c cs ih =>
    intro h
    have hc : c ≠ ' ' := h c (by simp)
    simp only [List.map_cons, ih (fun c' hc' => h c' (by simp [hc']))]
    simp [repl_space_char, hc]

theorem py_replace_space_of_no_space {s : String}
    (h : ∀ c ∈ s.data, c ≠ ' ') : py_replace_space s = s := by
  cases s with
  | mk l => exact congrArg String.mk (map_repl_space_id l h)

theorem pad_digits_no_space (k : Nat) (ds : List Nat) :
    ∀ c ∈ (List.replicate k '0' ++ ds.map hexDigitCharUpper), c ≠ ' ' := by
  intro c hc
  rcases List.mem_append.mp hc with h | h
  · rw [List.eq_of_mem_replicate h]; decide
  · obtain ⟨d, -, hd⟩ := List.mem_map.mp h
    rw [← hd]
    exact hexDigitCharUpper_ne_space d

theorem fmt04X_no_space (n : Nat) : ∀ c ∈ (fmt04X n).data, c ≠ ' ' :=
  fun c hc => pad_digits_no_space _ _ c hc

theorem fmt04d_no_space (n : Nat) : ∀ c ∈ (fmt04d n).data, c ≠ ' ' :=
  fun c hc => pad_digits_no_space _ _ c hc

theorem no_space_append {a b : String} (ha : ∀ c ∈ a.data, c ≠ ' ')
    (hb : ∀ c ∈ b.data, c ≠ ' ') : ∀ c ∈ (a ++ b).data, c ≠ ' ' := by
  intro c hc
  rw [String.data_append] at hc
  rcases List.mem_append.mp hc with h | h
  · exact ha c h
  · exact hb c h

theorem unknown_serial_no_space (vid pid idx : Nat) :
    ∀ c ∈ ("UNKNOWN_" ++ fmt04X vid ++ fmt04X pid ++ "_" ++
           fmt04d idx).data, c ≠ ' ' := by
  refine no_space_append (no_space_append (no_space_append (no_space_append
    ?_ (fmt04X_no_space vid)) (fmt04X_no_space pid)) ?_) (fmt04d_no_space idx)
  · decide
  · decide

/-- C4: for every serial string read from the device that fails the
digits/uppercase validation, `get_serial` returns a serial of the exact form
`UNKNOWN_{VID:04X}{PID:04X}_{index:04d}`, with the index taken from the
shared per-(vid, pid) counter starting at 0; two devices with the same
vendor/product IDs and invalid serials receive indices 0 and 1 in call
order. -/
theorem get_serial_generated_format :
    ∀ (vid pid : Nat) (raw1 raw2 : String),
    valid_serial raw1 = false → valid_serial raw2 = false →
    (get_serial raw1 vid pid (fun _ => 0)).1 =
      "UNKNOWN_" ++ fmt04X vid ++ fmt04X pid ++ "_" ++ fmt04d 0 ∧
    (get_serial raw2 vid pid (get_serial raw1 vid pid (fun _ => 0)).2).1 =
      "UNKNOWN_" ++ fmt04X vid ++ fmt04X pid ++ "_" ++ fmt04d 1 ∧
    fmt04d 0 = "0000" ∧ fmt04d 1 = "0001" := by
  intro vid pid raw1 raw2 h1 h2
  refine ⟨?_, ?_, by decide, by decide⟩
  · have e1 : (get_serial raw1 vid pid (fun _ => 0)).1 =
        py_replace_space ("UNKNOWN_" ++ fmt04X vid ++ fmt04X pid ++ "_" ++
          fmt04d 0) := by
      simp [get_serial, h1]
    rw [e1, py_replace_space_of_no_space (unknown_serial_no_space vid pid 0)]
  · have e2 : (get_serial raw2 vid pid
        (get_serial raw1 vid pid (fun _ => 0)).2).1 =
        py_replace_space ("UNKNOWN_" ++ fmt04X vid ++ fmt04X pid ++ "_" ++
          fmt04d 1) := by
      simp [get_serial, h1, h2]
    rw [e2, py_replace_space_of_no_space (unknown_serial_no_space vid pid 1)]

/-- C4 witness: two devices with VID 0x1532, PID 0x0016 and known-bad
hardware serials get the generated serials with indices 0 and 1. -/
theorem get_serial_generated_format_witness :
    (get_serial "Default string" 5426 22 (fun _ => 0)).1 =
      "UNKNOWN_" ++ fmt04X 5426 ++ fmt04X 22 ++ "_" ++ fmt04d 0 ∧
    (get_serial "empty (NULL)" 5426 22
      (get_serial "Default string" 5426 22 (fun _ => 0)).2).1 =
      "UNKNOWN_" ++ fmt04X 5426 ++ fmt04X 22 ++ "_" ++ fmt04d 1 ∧
    fmt04d 0 = "0000" ∧ fmt04d 1 = "0001" :=
  get_serial_generated_format 5426 22 "Default string" "empty (NULL)"
    (by decide) (by decide)

/-! ## Suspend/resume and the disable flags -/

theorem set_persistence_disabled {s : DeviceState} {z k : String} {v : PVal}
    (h : s.disable_persistence = true) : set_persistence s z k v = s := by
  simp [set_persistence, h]

theorem notify_observers_disabled {s : DeviceState} {m : String}
    (h : s.disable_notifications = true) : notify_observers s m = s := by
  simp [notify_observers, h]

theorem zone_active_setter_disabled {s : DeviceState} {i : String} {v : Bool}
    (h1 : s.disable_notifications = true) (h2 : s.disable_persistence = true) :
    zone_active_setter s i v = s := by
  unfold zone_active_setter
  rw [set_persistence_disabled h2, notify_observers_disabled h1]

theorem zone_brightness_setter_disabled {s : DeviceState} {i : String}
    {v : Int} (h1 : s.disable_notifications = true)
    (h2 : s.disable_persistence = true) :
    zone_brightness_setter s i v = s := by
  unfold zone_brightness_setter
  rw [set_persistence_disabled h2, notify_observers_disabled h1]

theorem disable_brightness_step_disabled {env : DeviceEnv} {t : DeviceState}
    {i : String} (h1 : t.disable_notifications = true)
    (h2 : t.disable_persistence = true) :
    disable_brightness_step env t i = t := by
  simp [disable_brightness_step, zone_active_setter_disabled h1 h2,
        zone_brightness_setter_disabled h1 h2]

theorem restore_brightness_step_disabled {env : DeviceEnv} {t : DeviceState}
    {i : String} (h1 : t.disable_notifications = true)
    (h2 : t.disable_persistence = true) :
    restore_brightness_step env t i = t := by
  simp [restore_brightness_step, zone_active_setter_disabled h1 h2,
        zone_brightness_setter_disabled h1 h2]

theorem foldl_flag_id (f : DeviceState → String → DeviceState)
    (hf : ∀ t i, t.disable_notifications = true →
      t.disable_persistence = true → f t i = t) :
    ∀ (l : List String) (t : DeviceState),
    t.disable_notifications = true → t.disable_persistence = true →
    l.foldl f t = t := by
  intro l
  induction l with
  | nil => intro t _ _; rfl
  | cons i rest ih =>
    intro t h1 h2
    rw [List.foldl_cons, hf t i h1 h2]
    exact ih t h1 h2

theorem disable_brightness_flag_id {env : DeviceEnv} {s : DeviceState}
    (h1 : s.disable_notifications = true)
    (h2 : s.disable_persistence = true) :
    disable_brightness env s = s :=
  foldl_flag_id _ (fun _ _ ht1 ht2 => disable_brightness_step_disabled ht1 ht2)
    ZONES s h1 h2

theorem restore_brightness_flag_id {env : DeviceEnv} {s : DeviceState}
    (h1 : s.disable_notifications = true)
    (h2 : s.disable_persistence = true) :
    restore_brightness env s = s :=
  foldl_flag_id _ (fun _ _ ht1 ht2 => restore_brightness_step_disabled ht1 ht2)
    ZONES s h1 h2

theorem suspend_device_eq (env : DeviceEnv) (s : DeviceState) :
    suspend_device env s =
      { s with disable_notifications := false,
               disable_persistence := false } := by
  simp only [suspend_device]
  rw [disable_brightness_flag_id rfl rfl]

theorem resume_device_eq (env : DeviceEnv) (s : DeviceState) :
    resume_device env s =
      { s with disable_notifications := false, disable_persistence := false,
               mode_writes := s.mode_writes ++
                 (if env.DRIVER_MODE = true then [(3, 0)] else []) } := by
  simp only [resume_device]
  by_cases hd : env.DRIVER_MODE = true
  · rw [if_pos hd, if_pos hd, restore_brightness_flag_id rfl rfl]
    simp [set_device_mode]
  · rw [if_neg hd, if_neg hd, restore_brightness_flag_id rfl rfl]
    simp

/-- C5: suspending and then resuming leaves every zone's in-memory
brightness and active value equal to its pre-suspend value, and no observer
receives any delivery from any `notify_observers` call made during either
transition (the disable flags cover the whole side-effecting window of both
operations, so the brightness writes go to the hardware only). -/
theorem suspend_resume_preserves_zone_state :
    ∀ (env : DeviceEnv) (s : DeviceState),
    (∀ i, ((resume_device env (suspend_device env s)).zones i).brightness =
            (s.zones i).brightness ∧
          ((resume_device env (suspend_device env s)).zones i).active =
            (s.zones i).active) ∧
    (resume_device env (suspend_device env s)).delivered = s.delivered ∧
    (suspend_device env s).delivered = s.delivered := by
  intro env s
  rw [suspend_device_eq, resume_device_eq]
  exact ⟨fun i => ⟨rfl, rfl⟩, rfl, rfl⟩

/-- C10: both `suspend_device` and `resume_device` unconditionally leave the
disable-notifications and disable-persistence flags `False` on return,
whatever their values were before the call. -/
theorem suspend_resume_clears_flags :
    ∀ (env : DeviceEnv) (s : DeviceState),
    (suspend_device env s).disable_notifications = false ∧
    (suspend_device env s).disable_persistence = false ∧
    (resume_device env s).disable_notifications = false ∧
    (resume_device env s).disable_persistence = false := by
  intro env s
  rw [suspend_device_eq, resume_device_eq]
  exact ⟨rfl, rfl, rfl, rfl⟩

/-! ## Observer bus -/

theorem foldl_deliver_delivered (msg : String) :
    ∀ (obs : List Nat) (t : DeviceState),
    (obs.foldl (fun u o => deliver u (Recipient.obs o) msg) t).delivered =
      t.delivered ++ obs.map (fun o => (Recipient.obs o, msg)) := by
  intro obs
  induction obs with
  | nil => intro t; simp
  | cons o os ih =>
    intro t
    rw [List.foldl_cons, ih]
    simp [deliver, List.append_assoc]

/-- C6: `notify_observers` delivers nothing to anyone when the
disable-notifications flag is set (the state is untouched); otherwise, when
propagation is enabled and a parent is registered, it delivers first to the
parent and then to every directly registered observer in list (registration)
order. -/
theorem notify_observers_dispatch :
    ∀ (s : DeviceState) (msg : String),
    (s.disable_notifications = true → notify_observers s msg = s) ∧
    (s.disable_notifications = false →
      (notify_observers s msg).delivered =
        s.delivered ++
        (if s.effect_sync_propagate_up = true ∧ s.parent.isSome = true
         then [(Recipient.parent, msg)] else []) ++
        s.observers.map (fun o => (Recipient.obs o, msg))) := by
  intro s msg
  constructor
  · intro h; simp [notify_observers, h]
  · intro h
    simp only [notify_observers, h, Bool.false_eq_true, if_false]
    rw [foldl_deliver_delivered]
    by_cases hc : s.effect_sync_propagate_up = true ∧ s.parent.isSome = true
    · rw [if_pos hc, if_pos hc]
      simp [deliver]
    · rw [if_neg hc, if_neg hc]
      simp

/-- C6 witness: with notifications disabled nothing happens; enabled, with
propagation on and a parent registered, the parent is delivered first and
then observers 5 and 7 in order. -/
theorem notify_observers_dispatch_witness :
    notify_observers sNotifyOff "evt" = sNotifyOff ∧
    (notify_observers sNotify "evt").delivered =
      [(Recipient.parent, "evt"), (Recipient.obs 5, "evt"),
       (Recipient.obs 7, "evt")] := by
  constructor
  · exact (notify_observers_dispatch sNotifyOff "evt").1 rfl
  · have h := (notify_observers_dispatch sNotify "evt").2 rfl
    simpa using h

/-! ## `close` -/

/-- C8: `close` is idempotent: the first call captures the live DPI when
supported, reverts driver mode tolerating a missing control file, runs the
close hook (clearing the observer list) and marks the device closed; any
call on an already-closed device returns the state unchanged, performing no
side effects. -/
theorem close_idempotent :
    ∀ (env : DeviceEnv) (s : DeviceState),
    (close env s).is_closed = true ∧
    (s.is_closed = true → close env s = s) ∧
    close env (close env s) = close env s ∧
    (s.is_closed = false → "get_dpi_xy" ∈ env.METHODS →
      hasAttr env "getDPI" = true → (close env s).dpi = env.live_dpi) ∧
    (s.is_closed = false → (close env s).observers = []) ∧
    (s.is_closed = false → env.DRIVER_MODE = true →
      env.mode_file_present = true →
      (close env s).mode_writes = s.mode_writes ++ [(0, 0)]) ∧
    (s.is_closed = false → env.DRIVER_MODE = true →
      env.mode_file_present = false →
      (close env s).mode_writes = s.mode_writes) := by
  intro env s
  have hclosed : ∀ t : DeviceState, t.is_closed = true → close env t = t := by
    intro t ht
    simp [close, ht]
  have hmark : (close env s).is_closed = true := by
    by_cases hc : s.is_closed = true
    · rw [hclosed s hc]
      exact hc
    · simp [close, hc]
  refine ⟨hmark, hclosed s, hclosed (close env s) hmark, ?_, ?_, ?_, ?_⟩
  · intro h0 hm hattr
    simp [close, h0, hm, hattr, apply_ite, set_device_mode]
  · intro h0
    simp [close, h0]
  · intro h0 hd hf
    simp [close, h0, hd, hf, apply_ite, set_device_mode]
  · intro h0 hd hf
    simp [close, h0, hd, hf, apply_ite]

/-- C8 witness: closing an already-closed device changes nothing; the first
close on a fresh device marks it closed, captures the live DPI, clears the
observers and writes the device-mode revert. -/
theorem close_idempotent_witness :
    close envClose sClosed = sClosed ∧
    (close envClose baseState).is_closed = true ∧
    close envClose (close envClose baseState) = close envClose baseState ∧
    (close envClose baseState).dpi = envClose.live_dpi ∧
    (close envClose baseState).observers = [] ∧
    (close envClose baseState).mode_writes = baseState.mode_writes ++ [(0, 0)] := by
  refine ⟨(close_idempotent envClose sClosed).2.1 rfl,
          (close_idempotent envClose baseState).1,
          (close_idempotent envClose baseState).2.2.1,
          (close_idempotent envClose baseState).2.2.2.1 rfl (by decide)
            (by decide),
          (close_idempotent envClose baseState).2.2.2.2.1 rfl,
          (close_idempotent envClose baseState).2.2.2.2.2.1 rfl rfl rfl⟩

/-! ## DPI and poll-rate clamping -/

theorem pyMinAbsGo_spec (p : Int) :
    ∀ (xs : List Int) (b : Int),
    (pyMinAbsGo p b xs = b ∨ pyMinAbsGo p b xs ∈ xs) ∧
    (pyMinAbsGo p b xs - p).natAbs ≤ (b - p).natAbs ∧
    ∀ x ∈ xs, (pyMinAbsGo p b xs - p).natAbs ≤ (x - p).natAbs := by
  intro xs
  induction xs with
  | nil => intro b; exact ⟨Or.inl rfl, le_refl _, by simp⟩
  | cons x xs ih =>
    intro b
    by_cases hc : (x - p).natAbs < (b - p).natAbs
    · have hred : pyMinAbsGo p b (x :: xs) = pyMinAbsGo p x xs := by
        simp [pyMinAbsGo, hc]
      obtain ⟨hm, hle, hall⟩ := ih x
      rw [hred]
      refine ⟨?_, le_trans hle (le_of_lt hc), ?_⟩
      · rcases hm with h | h
        · exact Or.inr (by simp [h])
        · exact Or.inr (by simp [h])
      · intro y hy
        rcases List.mem_cons.mp hy with h | h
        · rw [h]; exact hle
        · exact hall y h
    · have hred : pyMinAbsGo p b (x :: xs) = pyMinAbsGo p b xs := by
        simp [pyMinAbsGo, hc]
      obtain ⟨hm, hle, hall⟩ := ih b
      rw [hred]
      refine ⟨?_, hle, ?_⟩
      · rcases hm with h | h
        · exact Or.inl h
        · exact Or.inr (by simp [h])
      · intro y hy
        rcases List.mem_cons.mp hy with h | h
        · rw [h]; exact le_trans hle (Nat.le_of_not_lt hc)
        · exact hall y h

theorem pyMinAbs_spec (p : Int) (l : List Int) (hne : l ≠ []) :
    ∃ r, pyMinAbs p l = some r ∧ r ∈ l ∧
      ∀ x ∈ l, (r - p).natAbs ≤ (x - p).natAbs := by
  cases l with
  | nil => exact absurd rfl hne
  | cons x xs =>
    obtain ⟨hm, hle, hall⟩ := pyMinAbsGo_spec p xs x
    refine ⟨pyMinAbsGo p x xs, rfl, ?_, ?_⟩
    · rcases hm with h | h
      · rw [h]; exact List.mem_cons_self x xs
      · exact List.mem_cons_of_mem x h
    · intro y hy
      rcases List.mem_cons.mp hy with h | h
      · rw [h]; exact hle
      · exact hall y h

/-- C7: a persisted DPI pair is clamped componentwise to `DPI_MAX` before
the DPI setter is invoked (each call component is `min stored DPI_MAX`), and
a stored poll rate not in the available list is replaced, before the
poll-rate setter is invoked, by a member of the list at minimal absolute
distance from the stored value. -/
theorem restore_dpi_poll_rate_clamps :
    ∀ (env : DeviceEnv) (s : DeviceState),
    hasAttr env "setDPI" = true → hasAttr env "setPollRate" = true →
    env.POLL_RATES ≠ [] → s.poll_rate ∉ env.POLL_RATES →
    ∃ s' r, restore_dpi_poll_rate env s =
        some (s', some (min s.dpi.1 env.DPI_MAX, min s.dpi.2 env.DPI_MAX),
              some r) ∧
      s'.dpi = (min s.dpi.1 env.DPI_MAX, min s.dpi.2 env.DPI_MAX) ∧
      r ∈ env.POLL_RATES ∧
      (∀ x ∈ env.POLL_RATES,
        (r - s.poll_rate).natAbs ≤ (x - s.poll_rate).natAbs) ∧
      s'.poll_rate = r := by
  intro env s hdpi hpoll hne hnotin
  obtain ⟨r, hmin, hmem, hall⟩ := pyMinAbs_spec s.poll_rate env.POLL_RATES hne
  have hd0 : (if s.dpi.1 > env.DPI_MAX then env.DPI_MAX else s.dpi.1) =
      min s.dpi.1 env.DPI_MAX := by
    rcases le_or_lt s.dpi.1 env.DPI_MAX with h | h
    · rw [if_neg (not_lt.mpr h), min_eq_left h]
    · rw [if_pos h, min_eq_right (le_of_lt h)]
  have hd1 : (if s.dpi.2 > env.DPI_MAX then env.DPI_MAX else s.dpi.2) =
      min s.dpi.2 env.DPI_MAX := by
    rcases le_or_lt s.dpi.2 env.DPI_MAX with h | h
    · rw [if_neg (not_lt.mpr h), min_eq_left h]
    · rw [if_pos h, min_eq_right (le_of_lt h)]
  refine ⟨{ { s with
             dpi := (min s.dpi.1 env.DPI_MAX, min s.dpi.2 env.DPI_MAX) } with
            poll_rate := r }, r, ?_, rfl, hmem, hall, rfl⟩
  simp [restore_dpi_poll_rate, hdpi, hpoll, hnotin, hmin, hd0, hd1]

/-- C7 witness: DPI persisted as (5000, 5000) on a device with
`DPI_MAX = 1600` and a stored poll rate of 2000 not among
`[125, 500, 1000]`. -/
theorem restore_dpi_poll_rate_clamps_witness :
    ∃ s' r, restore_dpi_poll_rate envDpi sDpi =
        some (s', some (min sDpi.dpi.1 envDpi.DPI_MAX,
                        min sDpi.dpi.2 envDpi.DPI_MAX), some r) ∧
      s'.dpi = (min sDpi.dpi.1 envDpi.DPI_MAX,
                min sDpi.dpi.2 envDpi.DPI_MAX) ∧
      r ∈ envDpi.POLL_RATES ∧
      (∀ x ∈ envDpi.POLL_RATES,
        (r - sDpi.poll_rate).natAbs ≤ (x - sDpi.poll_rate).natAbs) ∧
      s'.poll_rate = r :=
  restore_dpi_poll_rate_clamps envDpi sDpi (by decide) (by decide)
    (by decide) (by decide)
